import Mathlib

/-!
Verification of the timelord city-query program (timelord.go).

Shallow embedding conventions:
* Go `float64` values are modelled as real numbers (`ℝ`); the program's
  floating-point trigonometry is idealised by the exact real functions.
* Go strings are Lean `String`s; Go string comparison (`<` on strings) is
  byte-lexicographic, modelled by the lexicographic `LinearOrder String`.
* `sort.SliceStable` is a stable sort with respect to the given strict
  `less` comparator.  A stable sort's output is uniquely determined by the
  comparator, so it is embedded here by `List.insertionSort` with the
  reflexive comparator `fun a b => key a ≤ key b` (Mathlib's
  `insertionSort` inserts each earlier-input element in front of the
  later-input elements with an equal key, hence is stable); the predicate
  `StableSortedBy` states sortedness together with stability (each class of
  equal keys keeps its relative input order) and is proved about the
  embedding.
* Fallible Go calls are returned in `Except String`; a Go `panic` that the
  program does not recover from is `Except.error`.
* External collaborators (the bleve text index, the filesystem, the clock,
  `strconv.ParseFloat`, the IANA timezone database) are parameters of the
  embedding, constrained only by the behaviour Go's standard library
  documents where the claims need it.
* Goroutine scheduling is modelled by an explicit `arrival` parameter: the
  order in which an unbuffered channel delivers the per-goroutine results,
  constrained in the theorems to be a permutation of the dispatched batch.
-/

namespace Timelord

/-! ## Data model (structs of timelord.go) -/

/-- City represents a city record as indexed by the program (struct `City`).
Latitude and longitude are stored as text, exactly as in the source. -/
structure City where
  ID : String
  Name : String
  ASCIIName : String
  CountryID : String
  Timezone : String
  Population : Int
  Latitude : String
  Longitude : String
deriving DecidableEq

/-- SearchResultIcon is the nested icon-path object (struct `SearchResultIcon`). -/
structure SearchResultIcon where
  Path : String
deriving DecidableEq

/-- SearchResult is one output item (struct `SearchResult`). -/
structure SearchResult where
  UID : String
  Title : String
  Subtitle : String
  Arg : String
  Autocomplete : String
  Icon : SearchResultIcon
deriving DecidableEq

/-- Airport record (struct `Airport`).  The Go field `Type` is renamed to
`type` because `Type` is reserved in Lean; `Distance` is the transient
per-query field.  Coordinates and distance are Go float64, modelled as ℝ. -/
structure Airport where
  ID : Int
  Name : String
  Code : String
  CountryCode : String
  Lat : ℝ
  Long : ℝ
  type : String
  Distance : ℝ

/-! ## HaversineDistance (timelord.go lines 70-83) -/

/-- Go's `math.Atan2` on finite real inputs: the angle of the point (x, y),
transcribed case by case for real arguments. -/
noncomputable def atan2 (y x : ℝ) : ℝ :=
  if 0 < x then Real.arctan (y / x)
  else if x < 0 then
    (if 0 ≤ y then Real.arctan (y / x) + Real.pi else Real.arctan (y / x) - Real.pi)
  else if 0 < y then Real.pi / 2
  else if y < 0 then -(Real.pi / 2)
  else 0

/-- HaversineDistance calculates the distance between 2 lat longs
(transcription of the Go function; `math.Pow (x, 2)` is `x ^ 2`,
Earth radius 6371 km). -/
noncomputable def HaversineDistance (la1 lg1 la2 lg2 : ℝ) : ℝ :=
  let lat1 := la1 * Real.pi / 180
  let long1 := lg1 * Real.pi / 180
  let lat2 := la2 * Real.pi / 180
  let long2 := lg2 * Real.pi / 180
  let diffLat := lat2 - lat1
  let diffLong := long2 - long1
  let a := Real.sin (diffLat / 2) ^ 2 +
    Real.cos lat1 * Real.cos lat2 * Real.sin (diffLong / 2) ^ 2
  let c := 2 * atan2 (Real.sqrt a) (Real.sqrt (1 - a))
  c * 6371

/-! ## Stable sorting -/

/-- A list `out` is the stable ascending sort of `l` by `key`: it is a
permutation of `l`, sorted by `key`, and for every key value the sublist of
elements carrying that key is exactly the same (same elements, same relative
order) as in `l`. -/
def StableSortedBy {α : Type} {κ : Type} [LinearOrder κ] (key : α → κ)
    (l out : List α) : Prop :=
  out.Perm l ∧ List.Sorted (fun a b => key a ≤ key b) out ∧
    ∀ k : κ, out.filter (fun a => decide (key a = k)) =
      l.filter (fun a => decide (key a = k))

/-! ## FindClosestAirport (timelord.go lines 220-239) -/

/-- FindClosestAirport returns list of airports from a city's lat long.
Transcription of the Go function: the loop attaches the haversine distance
to a copy of each record; `sort.SliceStable` by `Distance <` is the stable
ascending sort by distance; the slice `matches[:min (len, 5)]` is `take 5`;
the second `sort.SliceStable` by `Type <` is the stable ascending sort by
the type string; the final slice `filter[:min (len, 3)]` is `take 3`. -/
noncomputable def FindClosestAirport (lat long : ℝ) (airports : List Airport) :
    List Airport :=
  let matched := airports.map fun airport =>
    { airport with Distance := HaversineDistance lat long airport.Lat airport.Long }
  let sorted := List.insertionSort (fun i j => i.Distance ≤ j.Distance) matched
  let filtered := sorted.take 5
  let filtered2 := List.insertionSort (fun i j => i.type ≤ j.type) filtered
  filtered2.take 3

/-! ## The city index and searchCity (timelord.go lines 241-272) -/

/-- The bleve city index, abstracted to its observable behaviour: for a
search term, the ordered list of matching city records exactly as the search
request returns its hits (the source reads each hit document back into a
`City` record field by field, which is the identity here). -/
structure Index where
  search : String → List City

/-- The zero value `&City{}` that searchCity returns on a miss. -/
def emptyCity : City :=
  { ID := "", Name := "", ASCIIName := "", CountryID := "", Timezone := ""
    Population := 0, Latitude := "", Longitude := "" }

/-- searchCity: runs the match query; on zero hits it returns the zero City
together with the error "No results found" (the pair's second component
models Go's `error` return, `none` standing for a nil error); otherwise it
rebuilds one City per hit and returns the first with a nil error. -/
def searchCity (searchTerm : String) (index : Index) : City × Option String :=
  match index.search searchTerm with
  | [] => (emptyCity, some "No results found")
  | c :: _ => (c, none)

/-! ## performSearch (timelord.go lines 274-300) -/

/-- The per-term values the dispatcher's goroutines send over the channel:
the goroutine for `item` sends `(searchCity item cityIndex).1`, discarding
the error (line 283 ignores it and line 284 sends the record, which is the
zero City on a miss). -/
def dispatched (cities : List String) (cityIndex : Index) : List City :=
  cities.map fun item => (searchCity item cityIndex).1

/-- performSearch: fans out one goroutine per term, drains exactly
`cities.length` outcomes from the unbuffered channel and keeps those with a
non-empty ID.  The channel delivery order is scheduler-dependent: it is the
explicit `arrival` parameter, constrained in the theorems to be a
permutation of `dispatched cities cityIndex`. -/
def performSearch (cities : List String) (cityIndex : Index)
    (arrival : List City) : List City :=
  arrival.filter fun result => decide (result.ID ≠ "")

/-! ## The index ordering (timelord.go lines 241-248)

The search request asks bleve to order hits by `-_score` then `-population`.
bleve is an external library, so the ordered result sequence is modelled
from the spec: descending match score, ties broken by descending
population. -/

/-- The ranking key the request `SortBy ["-_score", "-population"]` asks
for: ascending in minus-score, then ascending in minus-population
(lexicographically), i.e. descending score with descending population as
the tie-break. -/
def bleveKey (hit : City × ℚ) : Lex (ℚ × Int) :=
  toLex (-hit.2, -hit.1.Population)

/-- Modelled from the spec: the ordered hit sequence bleve returns for a
match query, given the set of matching documents with their relevance
scores: the stable sort by `bleveKey`. -/
def bleveRanked (docs : List (City × ℚ)) : List (City × ℚ) :=
  List.insertionSort (fun a b => bleveKey a ≤ bleveKey b) docs

/-- An index built over per-term match sets with scores, answering each
query with the ranked hit records. -/
def bleveIndex (hits : String → List (City × ℚ)) : Index :=
  ⟨fun term => (bleveRanked (hits term)).map Prod.fst⟩

/-! ## formatResults (timelord.go lines 302-355) -/

/-- A Go `*time.Location`, abstracted to its name. -/
structure GoLocation where
  name : String
deriving DecidableEq

/-- The observable parts of the Go `time.Time` value `time.Now().In(loc)`:
the two renderings the program formats and the zone abbreviation. -/
structure GoTime where
  dateStr : String
  clockStr : String
  zoneAbbr : String
deriving DecidableEq

/-- The external world formatResults consults: the IANA timezone lookup
(`time.LoadLocation`; `none` models the nil location it returns, with a
non-nil error the program discards, for an unresolvable zone name), the
clock (`time.Now().In`), the filesystem check `os.Stat` on flag assets, and
`strconv.ParseFloat` with its error ignored (Go yields 0 on failure, which
the environment's function realises). -/
structure Env where
  loadLocation : String → Option GoLocation
  nowIn : GoLocation → GoTime
  fileExists : String → Bool
  parseFloat : String → ℝ

/-- Go map indexing `m[k]` for a `map[string]string`: the zero value ""
when the key is absent. -/
def lookupStr (m : List (String × String)) (k : String) : String :=
  (m.lookup k).getD ""

/-- Go map indexing for `map[string][]Airport`: the zero value (nil slice)
when the key is absent. -/
def lookupAirports (m : List (String × List Airport)) (k : String) :
    List Airport :=
  (m.lookup k).getD []

/-- The zero `SearchResult` that `make([]SearchResult, n)` fills slots with. -/
def zeroSearchResult : SearchResult :=
  { UID := "", Title := "", Subtitle := "", Arg := "", Autocomplete := ""
    Icon := ⟨""⟩ }

/-- One iteration of formatResults' loop.  A record with empty ID is skipped
by `continue`, leaving the zero SearchResult in its slot.  Otherwise the
iteration resolves the timezone — `loc, _ := time.LoadLocation(...)`
discards the lookup error, and `time.Now().In(loc)` panics on the nil
location, which is the `Except.error` case — then renders the record,
falling back to "flags/_no_flag.png" when the flag asset is missing and to
"" for absent country/phone/currency entries. -/
noncomputable def formatOne (env : Env) (countryIndex : List (String × String))
    (airportIndex : List (String × List Airport))
    (phoneIndex : List (String × String))
    (currencyIndex : List (String × String)) (city : City) :
    Except String SearchResult :=
  if city.ID = "" then Except.ok zeroSearchResult
  else
    match env.loadLocation city.Timezone with
    | none => Except.error "time: missing Location in call to Time.In"
    | some loc =>
      let now := env.nowIn loc
      let zone := now.zoneAbbr
      let icon0 := "flags/" ++
        ((lookupStr countryIndex city.CountryID).replace " " "_").toLower ++ ".png"
      let icon := if env.fileExists icon0 then icon0 else "flags/_no_flag.png"
      let lat := env.parseFloat city.Latitude
      let long := env.parseFloat city.Longitude
      let airports := FindClosestAirport lat long
        (lookupAirports airportIndex city.CountryID)
      let airportString := airports.map fun a => a.Code
      let subtitle := String.intercalate " | "
        [now.dateStr, lookupStr countryIndex city.CountryID,
          "+" ++ lookupStr phoneIndex city.CountryID,
          lookupStr currencyIndex city.CountryID,
          String.intercalate "," airportString]
      Except.ok
        { UID := city.ID
          Title := city.Name ++ " â€” " ++ now.clockStr ++ " " ++ zone
          Subtitle := subtitle
          Arg := city.Name
          Autocomplete := city.Name
          Icon := ⟨icon⟩ }

/-- formatResults: allocates one output slot per input record and runs the
loop; a panic in any iteration aborts the whole call before anything is
emitted.  The trailing JSON serialisation of the slot array is outside the
model; the returned list is the slot array it would serialise. -/
noncomputable def formatResults (env : Env) (results : List City)
    (countryIndex : List (String × String))
    (airportIndex : List (String × List Airport))
    (phoneIndex : List (String × String))
    (currencyIndex : List (String × String)) :
    Except String (List SearchResult) :=
  results.mapM (formatOne env countryIndex airportIndex phoneIndex currencyIndex)

/-! ## main (timelord.go lines 357-386) -/

/-- Everything main reads from the outside, in the order it reads it: the
`os.Stat` check on "cities.bleve", index creation and opening, and the four
dataset loads, each of which can abort the process (`Except.error`). -/
structure MainEnv where
  statIndexMissing : Bool
  createIndex : Except String Unit
  openIndex : Except String Index
  countryMap : Except String (List (String × String))
  airportsByCountry : Except String (List (String × List Airport))
  phoneCodes : Except String (List (String × String))
  currencyByCountry : Except String (List (String × String))
  fmtEnv : Env

/-- main: joins `os.Args[1:]` (the `args` parameter) with blanks, panics on
an empty input before touching the index or any dataset, then builds the
index if absent, loads the lookup tables, splits the input on commas, runs
the concurrent search and formats the result payload.  The returned list is
the items array of the JSON payload; `Except.error` is a fatal panic (no
payload at all). -/
noncomputable def mainGo (args : List String) (env : MainEnv)
    (arrival : List City) : Except String (List SearchResult) := do
  let input := String.intercalate " " args
  if input = "" then
    throw "Must specify query"
  if env.statIndexMissing then
    discard env.createIndex
  let cityIndex ← env.openIndex
  let countryIndex ← env.countryMap
  let airportIndex ← env.airportsByCountry
  let phoneIndex ← env.phoneCodes
  let currencyIndex ← env.currencyByCountry
  let searchTerm := input.splitOn ","
  let results := performSearch searchTerm cityIndex arrival
  formatResults env.fmtEnv results countryIndex airportIndex phoneIndex
    currencyIndex

/-! ## Concrete fixtures used by witnesses and counterexamples -/

/-- A concrete city record (values shaped like the dataset's). -/
def toronto : City :=
  { ID := "6167865", Name := "Toronto", ASCIIName := "toronto"
    CountryID := "CA", Timezone := "America/Toronto", Population := 2800000
    Latitude := "43.7", Longitude := "-79.4" }

/-- A concrete city record whose timezone identifier is not a valid IANA
zone name. -/
def cityBadTz : City :=
  { ID := "99", Name := "Nowhere", ASCIIName := "nowhere", CountryID := "XX"
    Timezone := "Invalid/Zone", Population := 1, Latitude := "0"
    Longitude := "0" }

/-- A concrete index: "toronto" matches one record, nothing else matches. -/
def idx0 : Index :=
  ⟨fun term => if term = "toronto" then [toronto] else []⟩

/-- A concrete environment whose timezone database resolves only "UTC". -/
noncomputable def env0 : Env :=
  { loadLocation := fun nm => if nm = "UTC" then some ⟨"UTC"⟩ else none
    nowIn := fun _ => { dateStr := "Monday, January 2", clockStr := "3:04 PM"
                        zoneAbbr := "UTC" }
    fileExists := fun _ => false
    parseFloat := fun _ => 0 }

/-- A concrete environment whose timezone database resolves every name. -/
noncomputable def envAll : Env :=
  { loadLocation := fun nm => some ⟨nm⟩
    nowIn := fun _ => { dateStr := "Monday, January 2", clockStr := "3:04 PM"
                        zoneAbbr := "EST" }
    fileExists := fun _ => false
    parseFloat := fun _ => 0 }

/-! ## Helper lemmas -/

/-- The haversine intermediate `a` is symmetric in the two coordinate pairs. -/
theorem hav_a_symm (p q u v : ℝ) :
    Real.sin ((u - p) / 2) ^ 2 + Real.cos p * Real.cos u * Real.sin ((v - q) / 2) ^ 2 =
      Real.sin ((p - u) / 2) ^ 2 + Real.cos u * Real.cos p * Real.sin ((q - v) / 2) ^ 2 := by
  rw [show (u - p) / 2 = -((p - u) / 2) by ring, show (v - q) / 2 = -((q - v) / 2) by ring,
    Real.sin_neg, Real.sin_neg]
  ring

/-- Insertion sort does not disturb the relative order of elements selected
by a predicate on which the sorting relation is total-true. -/
theorem filter_insertionSort_of_pairwise {α : Type} (r : α → α → Prop)
    [DecidableRel r] (p : α → Bool) (hp : ∀ a b, p a = true → p b = true → r a b)
    (l : List α) : (List.insertionSort r l).filter p = l.filter p := by
  have hpair : (l.filter p).Pairwise r := by
    rw [List.pairwise_iff_forall_sublist]
    intro a b hab
    have ha : a ∈ l.filter p := hab.subset (by simp)
    have hb : b ∈ l.filter p := hab.subset (by simp)
    exact hp a b (List.mem_filter.mp ha).2 (List.mem_filter.mp hb).2
  have hsub : (l.filter p).Sublist (List.insertionSort r l) :=
    List.sublist_insertionSort hpair (List.filter_sublist l)
  have h0 : (l.filter p).filter p = l.filter p :=
    List.filter_eq_self.mpr fun a ha => (List.mem_filter.mp ha).2
  have h1 : (l.filter p).Sublist ((List.insertionSort r l).filter p) := by
    have := List.Sublist.filter p hsub
    rwa [h0] at this
  have hlen : ((List.insertionSort r l).filter p).length = (l.filter p).length :=
    ((List.perm_insertionSort r l).filter p).length_eq
  exact (h1.eq_of_length hlen.symm).symm

/-- Insertion sort with the comparator `key a ≤ key b` is a stable ascending
sort by `key`. -/
theorem stableSortedBy_insertionSort {α : Type} {κ : Type} [LinearOrder κ]
    (key : α → κ) (l : List α) :
    StableSortedBy key l (List.insertionSort (fun a b => key a ≤ key b) l) := by
  refine ⟨List.perm_insertionSort _ l, ?_, ?_⟩
  · letI : IsTotal α (fun a b => key a ≤ key b) :=
      ⟨fun a b => le_total (key a) (key b)⟩
    letI : IsTrans α (fun a b => key a ≤ key b) :=
      ⟨fun _ _ _ hab hbc => le_trans hab hbc⟩
    exact List.sorted_insertionSort _ l
  · intro k
    refine filter_insertionSort_of_pairwise _ _ (fun a b ha hb => ?_) l
    have ha' : key a = k := of_decide_eq_true ha
    have hb' : key b = k := of_decide_eq_true hb
    rw [ha', hb']

/-! ## Claim C7: the haversine distance is symmetric, zero on the diagonal,
and a pure function of its four arguments -/

/-- C7: HaversineDistance is symmetric in its two coordinate pairs, and the
distance from any point to itself is 0.  Determinism and purity are
inherent to the embedding: the value is a function of exactly the four
arguments. -/
theorem haversineDistance_symm_and_self_zero :
    (∀ la1 lg1 la2 lg2 : ℝ,
        HaversineDistance la1 lg1 la2 lg2 = HaversineDistance la2 lg2 la1 lg1) ∧
    (∀ la lg : ℝ, HaversineDistance la lg la lg = 0) := by
  constructor
  · intro la1 lg1 la2 lg2
    simp only [HaversineDistance]
    rw [hav_a_symm (la1 * Real.pi / 180) (lg1 * Real.pi / 180)
      (la2 * Real.pi / 180) (lg2 * Real.pi / 180)]
  · intro la lg
    simp only [HaversineDistance]
    rw [show (la * Real.pi / 180 - la * Real.pi / 180) / 2 = 0 by ring,
      show (lg * Real.pi / 180 - lg * Real.pi / 180) / 2 = 0 by ring]
    simp [atan2, Real.sin_zero, Real.sqrt_zero, Real.sqrt_one, Real.arctan_zero]

/-! ## Claim C1: FindClosestAirport follows the two-stage algorithm -/

/-- C1: FindClosestAirport computes the haversine distance from the query
point to every candidate and attaches it, stable-sorts ascending by that
distance, takes at most the first 5, stable-sorts that subset ascending by
the lexical order of the type string, and returns at most the first 3;
both sorts are stable (`StableSortedBy`: equal keys retain their relative
input order). -/
theorem findClosestAirport_two_stage (lat long : ℝ) (airports : List Airport) :
    ∃ s1 s2 : List Airport,
      StableSortedBy (fun a => a.Distance)
        (airports.map fun a =>
          { a with Distance := HaversineDistance lat long a.Lat a.Long }) s1 ∧
      StableSortedBy (fun a => a.type) (s1.take 5) s2 ∧
      FindClosestAirport lat long airports = s2.take 3 :=
  ⟨_, _, stableSortedBy_insertionSort _ _, stableSortedBy_insertionSort _ _, rfl⟩

/-! ## Claim C2: FindClosestAirport is safe -/

/-- C2: FindClosestAirport returns `min 3 (min 5 n)` records for `n`
candidates — hence at most 3, with both take operations clamped to the
available count (the embedding's `take` is exactly the clamped slice, so no
access past the end occurs) — every returned record equals some candidate
except for the transient Distance field, and an empty candidate list yields
an empty result. -/
theorem findClosestAirport_safe (lat long : ℝ) (airports : List Airport) :
    (FindClosestAirport lat long airports).length = min 3 (min 5 airports.length) ∧
    (∀ a ∈ FindClosestAirport lat long airports, ∃ b ∈ airports,
      a = { b with Distance := HaversineDistance lat long b.Lat b.Long }) ∧
    FindClosestAirport lat long [] = [] := by
  refine ⟨?_, ?_, rfl⟩
  · simp [FindClosestAirport, List.length_take, List.length_insertionSort,
      List.length_map]
  · intro a ha
    simp only [FindClosestAirport] at ha
    have h1 := (List.take_sublist 3 _).subset ha
    have h2 := (List.mem_insertionSort _).mp h1
    have h3 := (List.take_sublist 5 _).subset h2
    have h4 := (List.mem_insertionSort _).mp h3
    obtain ⟨b, hb, rfl⟩ := List.mem_map.mp h4
    exact ⟨b, hb, rfl⟩

/-! ## Claim C8: the input candidate list is never mutated and no distance
is carried over between queries -/

/-- C8: the stored Distance fields of the input candidates are irrelevant:
overwriting them arbitrarily (as a previous query would have, had the
per-query distance been cached on the caller's slice) does not change the
result, because FindClosestAirport attaches the freshly computed distance
to local copies before either sort reads it.  In the pure embedding the
caller's list itself is a value and cannot be mutated; this theorem states
the observable consequence that no distance is carried over between
queries. -/
theorem findClosestAirport_transient_distance (lat long : ℝ)
    (airports : List Airport) (f : Airport → ℝ) :
    FindClosestAirport lat long
        (airports.map fun a => { a with Distance := f a }) =
      FindClosestAirport lat long airports := by
  simp only [FindClosestAirport, List.map_map]
  rfl

/-! ## Claim C3: the concurrent batch dispatcher -/

/-- C3: for any batch of N terms and any channel delivery order (any
permutation of the dispatched per-term results), performSearch returns at
most N records; every returned record has a non-empty ID and is the best
match of some term of the batch (the first component of `searchCity` for
that term), so no record for a term outside the batch is returned; and
every miss (empty-identity result) is silently omitted. -/
theorem performSearch_batch (cities : List String) (cityIndex : Index)
    (arrival : List City)
    (hperm : arrival.Perm (dispatched cities cityIndex)) :
    (performSearch cities cityIndex arrival).length ≤ cities.length ∧
    (∀ c ∈ performSearch cities cityIndex arrival,
      c.ID ≠ "" ∧ ∃ t ∈ cities, c = (searchCity t cityIndex).1) ∧
    (∀ c ∈ arrival, c.ID = "" → c ∉ performSearch cities cityIndex arrival) := by
  refine ⟨?_, ?_, ?_⟩
  · calc (performSearch cities cityIndex arrival).length
        ≤ arrival.length := List.length_filter_le _ _
      _ = (dispatched cities cityIndex).length := hperm.length_eq
      _ = cities.length := List.length_map _ _
  · intro c hc
    have hmem := List.mem_filter.mp hc
    have hid : c.ID ≠ "" := of_decide_eq_true hmem.2
    refine ⟨hid, ?_⟩
    have hd : c ∈ dispatched cities cityIndex := hperm.subset hmem.1
    obtain ⟨t, ht, rfl⟩ := List.mem_map.mp hd
    exact ⟨t, ht, rfl⟩
  · intro c _ hid hmem
    have := of_decide_eq_true (List.mem_filter.mp hmem).2
    exact this hid

/-- C3 witness: a concrete 2-term batch ("toronto" hits, "atlantis" misses)
delivered in the opposite order to dispatch: one record comes back, it is
toronto, and the miss is dropped. -/
theorem performSearch_batch_witness :
    (performSearch ["toronto", "atlantis"] idx0 [emptyCity, toronto]).length ≤
      (["toronto", "atlantis"] : List String).length ∧
    (∀ c ∈ performSearch ["toronto", "atlantis"] idx0 [emptyCity, toronto],
      c.ID ≠ "" ∧ ∃ t ∈ ["toronto", "atlantis"], c = (searchCity t idx0).1) ∧
    (∀ c ∈ [emptyCity, toronto], c.ID = "" →
      c ∉ performSearch ["toronto", "atlantis"] idx0 [emptyCity, toronto]) :=
  performSearch_batch ["toronto", "atlantis"] idx0 [emptyCity, toronto]
    (by decide)

/-! ## Claim C4: searchCity's explicit no-match outcome -/

/-- C4: when the index's ordered result sequence is empty, searchCity
returns the explicit error "No results found" (a non-nil Go error, so the
zero record it accompanies never masquerades as success), and otherwise it
returns the first, highest-ranked record with a nil error; both outcomes
are ordinary return values, so a legitimate zero-match case never raises a
fatal error (the only panic in the source guards the index-infrastructure
call itself, not the zero-match case). -/
theorem searchCity_no_match (term : String) (index : Index) :
    (index.search term = [] →
      searchCity term index = (emptyCity, some "No results found")) ∧
    (∀ c rest, index.search term = c :: rest →
      searchCity term index = (c, none)) := by
  constructor
  · intro h
    simp [searchCity, h]
  · intro c rest h
    simp [searchCity, h]

/-- C4 witness: on the concrete index, the missing term gets the explicit
error outcome and the matching term gets the first record with a nil
error. -/
theorem searchCity_no_match_witness :
    searchCity "atlantis" idx0 = (emptyCity, some "No results found") ∧
    searchCity "toronto" idx0 = (toronto, none) :=
  ⟨(searchCity_no_match "atlantis" idx0).1 (by decide),
    (searchCity_no_match "toronto" idx0).2 toronto [] (by decide)⟩

/-! ## Claim C6: the index ordering and the head pick -/

/-- C6: the modelled index query returns exactly the matching records
(a permutation of the match set) ordered by descending relevance score with
descending population as the tie-break, and searchCity picks the head of
that ordering. -/
theorem bleveIndex_order (hits : String → List (City × ℚ)) (term : String) :
    (bleveRanked (hits term)).Perm (hits term) ∧
    List.Sorted
      (fun a b : City × ℚ =>
        b.2 < a.2 ∨ (a.2 = b.2 ∧ b.1.Population ≤ a.1.Population))
      (bleveRanked (hits term)) ∧
    (∀ c rest, (bleveIndex hits).search term = c :: rest →
      searchCity term (bleveIndex hits) = (c, none)) := by
  obtain ⟨hperm, hsort, _⟩ := stableSortedBy_insertionSort bleveKey (hits term)
  refine ⟨hperm, ?_, ?_⟩
  · refine hsort.imp ?_
    intro a b hab
    rw [bleveKey, bleveKey, Prod.Lex.le_iff] at hab
    rcases hab with h | ⟨h1, h2⟩
    · exact Or.inl (by simpa using h)
    · exact Or.inr ⟨by simpa using neg_injective h1, by simpa using h2⟩
  · intro c rest h
    simp only [searchCity, bleveIndex] at h ⊢
    rw [h]

/-- C6 witness: a concrete two-document match set with equal scores is
ranked by descending population, and searchCity returns the head. -/
theorem bleveIndex_order_witness :
    (bleveRanked [(cityBadTz, (1 : ℚ)), (toronto, (1 : ℚ))]).Perm
      [(cityBadTz, (1 : ℚ)), (toronto, (1 : ℚ))] ∧
    searchCity "x" (bleveIndex fun _ => [(cityBadTz, (1 : ℚ)), (toronto, (1 : ℚ))]) =
      (toronto, none) :=
  ⟨(bleveIndex_order (fun _ => [(cityBadTz, 1), (toronto, 1)]) "x").1,
    (bleveIndex_order (fun _ => [(cityBadTz, 1), (toronto, 1)]) "x").2.2
      toronto [cityBadTz] (by decide)⟩

/-! ## Claim C5: per-field degradation in the result enricher -/

/-- C5, evaluated at concrete inputs.  First conjunct — the failing case:
for a record whose timezone identifier does not resolve, formatResults does
NOT fail open; `time.LoadLocation`'s error is discarded and
`time.Now().In(nil)` panics, aborting the whole batch (the code_bug:
the claim's graceful timezone fallback is the evident intent of discarding
the error, but the call panics).  Second conjunct — the fallbacks that do
hold: with every lookup table empty and no flag asset on disk, the record
is still produced, country/phone/currency degrade to the empty string
("+" keeps its literal prefix) and the icon falls back to
"flags/_no_flag.png". -/
theorem formatResults_timezone_panic_and_fallbacks :
    formatResults env0 [cityBadTz] [] [] [] [] =
      Except.error "time: missing Location in call to Time.In" ∧
    formatOne envAll [] [] [] [] toronto =
      Except.ok
        { UID := "6167865"
          Title := "Toronto â€” 3:04 PM EST"
          Subtitle := "Monday, January 2 |  | + |  | "
          Arg := "Toronto"
          Autocomplete := "Toronto"
          Icon := ⟨"flags/_no_flag.png"⟩ } :=
  ⟨rfl, rfl⟩

/-! ## Claim C9: formatResults keeps one slot per input record -/

/-- C9 counterexample to the claim as stated: it is not true for EVERY
input list that formatResults produces an items array of the input's
length — a record with a non-empty ID whose timezone identifier does not
resolve makes the call panic (see C5), producing no array at all. -/
theorem formatResults_no_array_on_bad_timezone :
    formatResults env0 [cityBadTz] [] [] [] [] ≠
      Except.ok [zeroSearchResult] ∧
    formatResults env0 [cityBadTz] [] [] [] [] =
      Except.error "time: missing Location in call to Time.In" :=
  ⟨by
    rw [show formatResults env0 [cityBadTz] [] [] [] [] =
      Except.error "time: missing Location in call to Time.In" from rfl]
    simp, rfl⟩

/-- C9 as amended: for every input list in which every record with a
non-empty identity has a resolvable timezone (so that no iteration
panics), formatResults produces an items array whose length equals the
input length, and a record with empty identity is not dropped but leaves
the zero-valued SearchResult at its position. -/
theorem formatResults_one_slot_per_record (env : Env) (results : List City)
    (countryIndex : List (String × String))
    (airportIndex : List (String × List Airport))
    (phoneIndex : List (String × String))
    (currencyIndex : List (String × String))
    (hzone : ∀ c ∈ results, c.ID ≠ "" →
      (env.loadLocation c.Timezone).isSome = true) :
    ∃ out, formatResults env results countryIndex airportIndex phoneIndex
        currencyIndex = Except.ok out ∧
      out.length = results.length ∧
      ∀ (i : Nat) (d : City), results[i]? = some d → d.ID = "" →
        out[i]? = some zeroSearchResult := by
  induction results with
  | nil =>
    refine ⟨[], rfl, rfl, ?_⟩
    intro i c h
    simp at h
  | cons c rest ih =>
    obtain ⟨out, hout, hlen, hidx⟩ :=
      ih fun d hd => hzone d (List.mem_cons_of_mem _ hd)
    have hc : ∃ r, formatOne env countryIndex airportIndex phoneIndex
        currencyIndex c = Except.ok r ∧ (c.ID = "" → r = zeroSearchResult) := by
      by_cases h : c.ID = ""
      · exact ⟨zeroSearchResult, by simp [formatOne, h], fun _ => rfl⟩
      · have hs := hzone c (List.mem_cons_self _ _) h
        obtain ⟨loc, hloc⟩ := Option.isSome_iff_exists.mp hs
        cases hfo : formatOne env countryIndex airportIndex phoneIndex
            currencyIndex c with
        | error e =>
          simp only [formatOne, h, hloc] at hfo
          exact Except.noConfusion hfo
        | ok r => exact ⟨r, rfl, fun hcontr => absurd hcontr h⟩
    obtain ⟨r, hr, hrzero⟩ := hc
    refine ⟨r :: out, ?_, by simp [hlen], ?_⟩
    · simp only [formatResults] at hout ⊢
      rw [List.mapM_cons, hr, hout]
      rfl
    · intro i d hid hdid
      cases i with
      | zero =>
        simp only [List.getElem?_cons_zero, Option.some.injEq] at hid
        subst hid
        simp [hrzero hdid]
      | succ n =>
        simp only [List.getElem?_cons_succ] at hid ⊢
        exact hidx n d hid hdid

/-- C9 witness: a concrete two-record list — toronto followed by the zero
city — yields exactly two slots, the second being the zero SearchResult. -/
theorem formatResults_one_slot_per_record_witness :
    ∃ out, formatResults envAll [toronto, emptyCity] [] [] [] [] =
        Except.ok out ∧
      out.length = 2 ∧
      ∀ (i : Nat) (d : City), [toronto, emptyCity][i]? = some d → d.ID = "" →
        out[i]? = some zeroSearchResult :=
  formatResults_one_slot_per_record envAll [toronto, emptyCity] [] [] [] []
    fun _ _ _ => rfl

/-! ## Claim C10: main requires a query -/

/-- C10: invoked with no command-line arguments (so the joined input string
is empty), main panics with "Must specify query" and emits no payload; the
statement quantifies over every environment — including ones whose index
check, index build/open and dataset loads would themselves fail or return
anything whatsoever — so the fatal check happens before any dataset is
loaded or any index is built, and its outcome does not depend on them. -/
theorem mainGo_requires_query (env : MainEnv) (arrival : List City) :
    mainGo [] env arrival = Except.error "Must specify query" := rfl

end Timelord
